import Mathlib

/-!
Verification of the llm-bridge translation layer: the vendor-neutral tool
schema and its per-vendor JSON translators (src/tool.rs), the request
builder and renderer (src/client.rs), and the polymorphic response model
with its normalized accessors (src/response.rs).

The Rust code is shallowly embedded: serde_json values become the `Json`
inductive below (objects as association lists with unique keys, numbers as
rationals, which represent every finite f64 exactly), `f64` becomes the
four-way split `F64` (finite payload / NaN / +inf / -inf; the code never
does arithmetic on temperatures, only classifies and embeds them), and the
`HashMap` of tool parameters becomes an association list (the spec only
ever asks set-membership questions about it, so the iteration order the
list fixes is immaterial).
-/

namespace LlmBridge

/-- Model of a serde_json `Value`. Objects are association lists with
unique keys (serde_json's `Map`); `num` carries a rational, which is exact
for every finite IEEE double and for the u64/i64/usize integers the wire
shapes use. -/
inductive Json where
  | null : Json
  | bool (b : Bool) : Json
  | num (q : Rat) : Json
  | str (s : String) : Json
  | arr (elems : List Json) : Json
  | obj (fields : List (String × Json)) : Json

/-- First-match lookup in an object's field list (keys are unique, so this
is the map lookup serde_json performs). -/
def lookupField : List (String × Json) → String → Option Json
  | [], _ => none
  | (k, v) :: rest, key => if k = key then some v else lookupField rest key

/-- `j["key"]` on an object; `none` on any other value. -/
def Json.getField : Json → String → Option Json
  | .obj fields, key => lookupField fields key
  | _, _ => none

/-- Model of Rust `f64` as seen by this code: the code only ever asks
"is it finite?" and, when finite, embeds the value exactly into a
serde_json number, so finite values carry their exact rational value. -/
inductive F64 where
  | finite (q : Rat) : F64
  | nan : F64
  | posInf : F64
  | negInf : F64
deriving DecidableEq, Repr

/-- `serde_json::Number::from_f64`: succeeds exactly on finite values. -/
def Number.from_f64 : F64 → Option Rat
  | .finite q => some q
  | _ => none

/-- Rust `Display` for f64, used only in the invalid-temperature error
message (hence only ever applied to non-finite values by `render_request`). -/
def F64.display : F64 → String
  | .finite q => toString q
  | .nan => "NaN"
  | .posInf => "inf"
  | .negInf => "-inf"

/-! ## Tool schema (src/tool.rs) -/

/-- `ToolParameter` from src/tool.rs. -/
structure ToolParameter where
  parameter_type : String
  description : String
  required : Bool
  enum_values : Option (List String)
deriving DecidableEq, Repr

/-- `Tool` from src/tool.rs. The Rust `HashMap<String, ToolParameter>` is
modelled as an association list with unique keys; the list order stands in
for the map's (unspecified) iteration order. -/
structure Tool where
  name : String
  description : String
  parameters : List (String × ToolParameter)
deriving DecidableEq, Repr

/-- The per-parameter JSON property object built inside
`Tool::process_tool_input`: type, description, and the optional enum array. -/
def ToolParameter.toPropertyJson (p : ToolParameter) : Json :=
  .obj ([("type", .str p.parameter_type), ("description", .str p.description)] ++
    match p.enum_values with
    | some vs => [("enum", Json.arr (vs.map Json.str))]
    | none => [])

/-- `Tool::process_tool_input`: one pass over the parameter map that fills
`properties` (every parameter) and `required` (names of parameters whose
`required` flag is set). The source's single loop does both accumulations;
they are rendered here as a map and a filter-map over the same list. -/
def Tool.process_tool_input (t : Tool) : List (String × Json) × List Json :=
  (t.parameters.map (fun np => (np.1, np.2.toPropertyJson)),
   (t.parameters.filter (fun np => np.2.required)).map (fun np => Json.str np.1))

/-- `Tool::to_anthropic_format`. Note the source discards the computed
`required` list and hard-codes the literal `["location"]`. -/
def Tool.to_anthropic_format (t : Tool) : Json :=
  let pr := t.process_tool_input
  .obj [("name", .str t.name), ("description", .str t.description),
        ("input_schema", .obj [("type", .str "object"),
                               ("properties", .obj pr.1),
                               ("required", .arr [.str "location"])])]

/-- `Tool::to_openai_format`: function envelope, with the computed
`required` list actually used. -/
def Tool.to_openai_format (t : Tool) : Json :=
  let pr := t.process_tool_input
  .obj [("type", .str "function"),
        ("function", .obj [("name", .str t.name), ("description", .str t.description),
                           ("parameters", .obj [("type", .str "object"),
                                                ("properties", .obj pr.1),
                                                ("required", .arr pr.2)])])]

/-! ## Request model (src/request.rs) and builder/renderer (src/client.rs) -/

/-- `Message` from src/request.rs. -/
structure Message where
  role : String
  content : String
deriving DecidableEq, Repr

/-- serde serialization of a `Message` into the request document. -/
def Message.toJson (m : Message) : Json :=
  .obj [("role", .str m.role), ("content", .str m.content)]

/-- `ClientLlm` from src/client.rs: which vendor the request targets. -/
inductive ClientLlm where
  | anthropic : ClientLlm
  | openai : ClientLlm
deriving DecidableEq, Repr

/-- `ApiError` from src/error.rs. `RequestError` and `ResponseParseError`
carry library error values in Rust; their payloads are irrelevant to the
renderer and dropped here. -/
inductive ApiError where
  | RequestError : ApiError
  | ClientError (s : String) : ApiError
  | ServerError (s : String) : ApiError
  | ResponseParseError : ApiError
  | MissingMessages : ApiError
  | InvalidUsage (s : String) : ApiError
deriving DecidableEq, Repr

def DEFAULT_ANTHROPIC_MODEL : String := "claude-3-haiku-20240307"

def DEFAULT_OPENAI_MODEL : String := "gpt-4o"

def DEFAULT_MAX_TOKENS : Nat := 100

def DEFAULT_TEMP : F64 := .finite 0

/-- The state accumulated by `RequestBuilder` (src/client.rs). The Rust
struct also holds a `&dyn LlmClientTrait` reference; the only information
`render_request` reads from it is `client_type()`, passed separately as a
`ClientLlm` argument to the rendering function below. -/
structure RequestBuilder where
  model : Option String
  messages : Option (List Message)
  max_tokens : Option Nat
  temperature : Option F64
  system_prompt : Option String
  tools : Option (List Tool)
deriving Repr

/-- `RequestBuilder::new`. -/
def RequestBuilder.new : RequestBuilder :=
  ⟨none, none, none, none, none, none⟩

/-- `RequestBuilder::user_message`: appends a `"user"`-role message. -/
def RequestBuilder.user_message (b : RequestBuilder) (message : String) : RequestBuilder :=
  { b with messages := match b.messages with
      | some ms => some (ms ++ [⟨"user", message⟩])
      | none => some [⟨"user", message⟩] }

/-- `RequestBuilder::render_request` (src/client.rs lines 118-177),
parameterized by the owning client's `client_type()`. -/
def render_request (vendor : ClientLlm) (b : RequestBuilder) : Except ApiError Json :=
  let model := b.model.getD
    (match vendor with
     | .anthropic => DEFAULT_ANTHROPIC_MODEL
     | .openai => DEFAULT_OPENAI_MODEL)
  match b.messages with
  | none => .error .MissingMessages
  | some messages =>
    let max_tokens := b.max_tokens.getD DEFAULT_MAX_TOKENS
    let temperature := b.temperature.getD DEFAULT_TEMP
    match Number.from_f64 temperature with
    | none => .error (.InvalidUsage ("Invalid temperature value: " ++ temperature.display))
    | some temperature_number =>
      let system_prompt := b.system_prompt.getD ""
      match vendor with
      | .anthropic =>
        .ok (Json.obj
          ([("model", .str model),
            ("messages", .arr (messages.map Message.toJson)),
            ("max_tokens", .num (max_tokens : Rat)),
            ("temperature", .num temperature_number),
            ("system", .str system_prompt)] ++
           match b.tools with
           | some ts => [("tools", Json.arr (ts.map Tool.to_anthropic_format))]
           | none => []))
      | .openai =>
        .ok (Json.obj
          ([("model", .str model),
            ("messages", .arr (messages.map Message.toJson ++
              (if system_prompt = "" then []
               else [Json.obj [("role", .str "system"), ("content", .str system_prompt)]]))),
            ("max_tokens", .num (max_tokens : Rat)),
            ("temperature", .num temperature_number)] ++
           match b.tools with
           | some ts => [("tools", Json.arr (ts.map Tool.to_openai_format))]
           | none => []))

/-- `render_request` takes `&self`: state-passing form of the call, making
explicit that the builder is returned unchanged (the method cannot mutate
it and performs no I/O — its body is pure value construction). -/
def renderStep (vendor : ClientLlm) (b : RequestBuilder) :
    Except ApiError Json × RequestBuilder :=
  (render_request vendor b, b)

/-! ## Response model (src/response.rs): structured shapes and accessors -/

/-- `AnthropicUsage` from src/response.rs (`usize` counters). -/
structure AnthropicUsage where
  input_tokens : Nat
  output_tokens : Nat
deriving DecidableEq, Repr

/-- `AnthropicContentBlock`: untagged union of a text block and a
tool-use block, field order as declared in the source. -/
inductive AnthropicContentBlock where
  | text (text : String) (block_type : String) : AnthropicContentBlock
  | toolUse (block_type : String) (id : String) (name : String) (input : Json) :
      AnthropicContentBlock

/-- `AnthropicResponse` from src/response.rs. -/
structure AnthropicResponse where
  id : String
  role : String
  content : List AnthropicContentBlock
  model : String
  stop_reason : String
  stop_sequence : Option String
  usage : AnthropicUsage

/-- `OpenAIFunction` from src/response.rs: the `arguments` field is a raw
string of (possibly invalid) JSON, parsed lazily in `tools()`. -/
structure OpenAIFunction where
  name : String
  arguments : String
deriving DecidableEq, Repr

/-- `OpenAIToolCall` from src/response.rs. -/
structure OpenAIToolCall where
  id : String
  call_type : String
  function : OpenAIFunction
deriving DecidableEq, Repr

/-- `OpenAIMessage` from src/response.rs. -/
structure OpenAIMessage where
  role : String
  content : Option String
  tool_calls : Option (List OpenAIToolCall)
deriving DecidableEq, Repr

/-- `OpenAIChoice` from src/response.rs. -/
structure OpenAIChoice where
  index : Nat
  message : OpenAIMessage
  finish_reason : String
deriving DecidableEq, Repr

/-- `OpenAIUsage` from src/response.rs. -/
structure OpenAIUsage where
  prompt_tokens : Nat
  completion_tokens : Nat
  total_tokens : Nat
deriving DecidableEq, Repr

/-- `OpenAIResponse` from src/response.rs. -/
structure OpenAIResponse where
  id : String
  object : String
  created : Int
  model : String
  choices : List OpenAIChoice
  usage : OpenAIUsage

/-- `ResponseMessage`: the untagged union over the two vendor shapes. -/
inductive ResponseMessage where
  | anthropic (r : AnthropicResponse) : ResponseMessage
  | openai (r : OpenAIResponse) : ResponseMessage

/-- `ToolResponse` from src/response.rs. -/
structure ToolResponse where
  id : String
  name : String
  input : Json

/-- `ResponseMessage::first_message` (src/response.rs lines 91-122). -/
def ResponseMessage.first_message : ResponseMessage → String
  | .anthropic response =>
    match response.content.head? with
    | some (.text text _) => text
    | some (.toolUse ..) => ""
    | none => ""
  | .openai response =>
    match response.choices.head? with
    | some choice =>
      match choice.message.content with
      | some content => content
      | none =>
        match choice.message.tool_calls with
        | some tool_calls =>
          match tool_calls.head? with
          | some first_tool => "Function call: " ++ first_tool.function.name
          | none => ""
        | none => ""
    | none => ""

/-- `ResponseMessage::tools` (src/response.rs lines 124-155). The call to
`serde_json::from_str` on each OpenAI tool call's `arguments` string is an
external library function; it is passed in as the `parse` argument, and the
source's `.unwrap_or(serde_json::Value::Null)` becomes `.getD Json.null`. -/
def ResponseMessage.tools (parse : String → Option Json) :
    ResponseMessage → Option (List ToolResponse)
  | .anthropic response =>
    let tool_uses : List ToolResponse := response.content.filterMap
      (fun block =>
        match block with
        | .toolUse _ id name input => some ⟨id, name, input⟩
        | .text .. => none)
    if tool_uses.isEmpty then none else some tool_uses
  | .openai response =>
    let tool_calls : List ToolResponse :=
      ((response.choices.filterMap (fun choice => choice.message.tool_calls)).flatten).map
        (fun tool_call =>
          ⟨tool_call.id, tool_call.function.name,
           (parse tool_call.function.arguments).getD Json.null⟩)
    if tool_calls.isEmpty then none else some tool_calls

/-- Spec-side reformulation of the extraction performed by `tools()`
(spec section 4.3): the ordered sequence of every tool/function invocation
across all content blocks or choices, written as a direct per-block /
per-choice concatenation, to be compared with the source's filter/flatten
pipeline. -/
def specInvocations (parse : String → Option Json) : ResponseMessage → List ToolResponse
  | .anthropic response =>
    response.content.flatMap
      (fun block =>
        match block with
        | .toolUse _ id name input => [⟨id, name, input⟩]
        | .text .. => [])
  | .openai response =>
    response.choices.flatMap
      (fun choice =>
        (choice.message.tool_calls.getD []).map
          (fun tool_call =>
            ⟨tool_call.id, tool_call.function.name,
             (parse tool_call.function.arguments).getD Json.null⟩))

/-! ## Structural shape matching (serde deserialization of the union)

`ResponseMessage` is `#[serde(untagged)]`: deserialization tries the
`Anthropic` variant first, then `OpenAI`, and keeps the first structural
match. The predicates below say when a JSON document deserializes into each
struct under serde's derive semantics: every non-`Option` field must be
present with the right type, `Option` fields may be absent or `null`,
and unknown fields are ignored (none of the structs opt into
`deny_unknown_fields`). -/

/-- The JSON value is a string. -/
def isStr : Json → Bool
  | .str _ => true
  | _ => false

/-- The JSON value deserializes as `usize` (64-bit): a non-negative
integer below 2^64. -/
def isUsizeNum : Json → Bool
  | .num q => q.den == 1 && 0 ≤ q.num && q.num < 2 ^ 64
  | _ => false

/-- The JSON value deserializes as `i64`: an integer in i64 range. -/
def isI64Num : Json → Bool
  | .num q => q.den == 1 && -(2 ^ 63) ≤ q.num && q.num < 2 ^ 63
  | _ => false

/-- A required `String` field. -/
def strField (j : Json) (key : String) : Bool :=
  (j.getField key).elim false isStr

/-- A required `usize` field. -/
def usizeField (j : Json) (key : String) : Bool :=
  (j.getField key).elim false isUsizeNum

/-- An `Option<String>` field: absent, `null`, or a string. -/
def optStrField (j : Json) (key : String) : Bool :=
  match j.getField key with
  | none => true
  | some .null => true
  | some (.str _) => true
  | some _ => false

/-- `AnthropicUsage` matches: both counters present as `usize`. -/
def matchesAnthropicUsage (j : Json) : Bool :=
  (match j with | .obj _ => true | _ => false) &&
  usizeField j "input_tokens" && usizeField j "output_tokens"

/-- The `Text` variant of `AnthropicContentBlock` matches. -/
def matchesTextBlock (j : Json) : Bool :=
  (match j with | .obj _ => true | _ => false) &&
  strField j "text" && strField j "type"

/-- The `ToolUse` variant of `AnthropicContentBlock` matches
(`input` is `serde_json::Value`, so any present value is accepted). -/
def matchesToolUseBlock (j : Json) : Bool :=
  (match j with | .obj _ => true | _ => false) &&
  strField j "type" && strField j "id" && strField j "name" &&
  (j.getField "input").isSome

/-- `AnthropicContentBlock` is itself untagged: `Text` is tried first. -/
def matchesContentBlock (j : Json) : Bool :=
  matchesTextBlock j || matchesToolUseBlock j

/-- The `AnthropicResponse` shape matches the document. -/
def matchesAnthropic (j : Json) : Bool :=
  (match j with | .obj _ => true | _ => false) &&
  strField j "id" && strField j "role" &&
  (match j.getField "content" with
   | some (.arr blocks) => blocks.all matchesContentBlock
   | _ => false) &&
  strField j "model" && strField j "stop_reason" &&
  optStrField j "stop_sequence" &&
  (j.getField "usage").elim false matchesAnthropicUsage

/-- `OpenAIFunction` matches. -/
def matchesOpenAIFunction (j : Json) : Bool :=
  (match j with | .obj _ => true | _ => false) &&
  strField j "name" && strField j "arguments"

/-- `OpenAIToolCall` matches. -/
def matchesOpenAIToolCall (j : Json) : Bool :=
  (match j with | .obj _ => true | _ => false) &&
  strField j "id" && strField j "type" &&
  (j.getField "function").elim false matchesOpenAIFunction

/-- `OpenAIMessage` matches: `content` and `tool_calls` are `Option`s. -/
def matchesOpenAIMessage (j : Json) : Bool :=
  (match j with | .obj _ => true | _ => false) &&
  strField j "role" && optStrField j "content" &&
  (match j.getField "tool_calls" with
   | none => true
   | some .null => true
   | some (.arr calls) => calls.all matchesOpenAIToolCall
   | some _ => false)

/-- `OpenAIChoice` matches. -/
def matchesOpenAIChoice (j : Json) : Bool :=
  (match j with | .obj _ => true | _ => false) &&
  usizeField j "index" &&
  (j.getField "message").elim false matchesOpenAIMessage &&
  strField j "finish_reason"

/-- `OpenAIUsage` matches: all three counters present as `usize`. -/
def matchesOpenAIUsage (j : Json) : Bool :=
  (match j with | .obj _ => true | _ => false) &&
  usizeField j "prompt_tokens" && usizeField j "completion_tokens" &&
  usizeField j "total_tokens"

/-- The `OpenAIResponse` shape matches the document. -/
def matchesOpenAI (j : Json) : Bool :=
  (match j with | .obj _ => true | _ => false) &&
  strField j "id" && strField j "object" &&
  (j.getField "created").elim false isI64Num &&
  strField j "model" &&
  (match j.getField "choices" with
   | some (.arr choices) => choices.all matchesOpenAIChoice
   | _ => false) &&
  (j.getField "usage").elim false matchesOpenAIUsage

/-- Which union variant a parse produced. -/
inductive ShapeTag where
  | anthropic : ShapeTag
  | openai : ShapeTag
deriving DecidableEq, Repr

/-- The variant chosen when a document is deserialized as the untagged
`ResponseMessage` (the path `AnthropicClient::send_message` takes):
variants are tried in declaration order, `Anthropic` first. -/
def detectShape (j : Json) : Option ShapeTag :=
  if matchesAnthropic j then some .anthropic
  else if matchesOpenAI j then some .openai
  else none

/-- The variant produced by `OpenAIClient::send_message`, which
deserializes directly as `OpenAIResponse` and wraps it in
`ResponseMessage::OpenAI`, never consulting the Anthropic shape. -/
def openaiClientShape (j : Json) : Option ShapeTag :=
  if matchesOpenAI j then some .openai else none

/-! ## Concrete instances used to evaluate the definitions -/

/-- A tool whose single required parameter is named `timezone`, exercising
the hard-coded `required` array in `to_anthropic_format`. -/
def timezoneTool : Tool :=
  ⟨"get_time", "Get the current time in a given timezone",
   [("timezone", ⟨"string", "IANA timezone name", true, none⟩)]⟩

/-- An Anthropic-shaped response whose first content block is a tool-use
block and whose second block is a text block with text `hi`. -/
def leadingToolUseResponse : ResponseMessage :=
  .anthropic ⟨"msg_1", "assistant",
    [.toolUse "tool_use" "toolu_1" "get_weather" Json.null, .text "hi" "text"],
    "claude-3-haiku-20240307", "tool_use", none, ⟨1, 1⟩⟩

/-- An Anthropic-shaped response whose first content block is a text block. -/
def plainTextResponse : AnthropicResponse :=
  ⟨"msg_2", "assistant", [.text "hello" "text"],
   "claude-3-haiku-20240307", "end_turn", none, ⟨5, 3⟩⟩

/-- An OpenAI-shaped response with no choices. -/
def emptyChoicesResponse : OpenAIResponse :=
  ⟨"chatcmpl-0", "chat.completion", 1721962302, "gpt-4o", [], ⟨0, 0, 0⟩⟩

/-- A tool call whose `arguments` string is not valid JSON. -/
def badCall : OpenAIToolCall := ⟨"call_1", "function", ⟨"get_weather", "not json"⟩⟩

/-- A choice carrying `badCall` and no message content. -/
def badChoice : OpenAIChoice := ⟨0, ⟨"assistant", none, some [badCall]⟩, "tool_calls"⟩

/-- An OpenAI-shaped response whose first choice has no content and one
tool call whose `arguments` string is not valid JSON. -/
def badArgumentsResponse : OpenAIResponse :=
  ⟨"chatcmpl-1", "chat.completion", 1721962302, "gpt-4o", [badChoice], ⟨106, 17, 123⟩⟩

/-- A JSON parser that accepts nothing: the behaviour of
`serde_json::from_str` on any invalid `arguments` string. -/
def rejectAll : String → Option Json := fun _ => none

/-- A builder holding one user message and an explicit system prompt. -/
def greetingBuilder : RequestBuilder :=
  { RequestBuilder.new.user_message "Hello!" with
    system_prompt := some "You are a helpful assistant." }

/-- A builder holding one user message and a NaN temperature. -/
def nanTempBuilder : RequestBuilder :=
  { RequestBuilder.new.user_message "Hello!" with temperature := some .nan }

/-- A JSON document carrying the union of both vendors required field
sets: serde ignores unknown fields, so it matches both response shapes. -/
def ambiguousDoc : Json :=
  .obj [("id", .str "x"), ("role", .str "assistant"), ("content", .arr []),
        ("model", .str "m"), ("stop_reason", .str "end_turn"),
        ("usage", .obj [("input_tokens", .num 1), ("output_tokens", .num 2),
                        ("prompt_tokens", .num 1), ("completion_tokens", .num 2),
                        ("total_tokens", .num 3)]),
        ("object", .str "chat.completion"), ("created", .num 1),
        ("choices", .arr [])]

/-! ## Theorems -/

/-- C1: the claim says every parameter registered with `required = true`
contributes its name to the `required` array of BOTH vendor formats. The
OpenAI translator does use the computed set, but `to_anthropic_format`
discards it and hard-codes the literal `["location"]` (src/tool.rs line
114), although the 4 lines above it compute the correct list into a dead
variable: evaluated at a tool whose required parameter is `timezone`, the
Anthropic document's `required` array is `["location"]` while the OpenAI
document's is `["timezone"]`. -/
theorem c1_required_array_hardcoded :
    (timezoneTool.to_anthropic_format.getField "input_schema").bind
        (fun s => s.getField "required") = some (.arr [.str "location"]) ∧
    (((timezoneTool.to_openai_format.getField "function").bind
        (fun f => f.getField "parameters")).bind
        (fun p => p.getField "required")) = some (.arr [.str "timezone"]) :=
  ⟨rfl, rfl⟩

/-- C3 counterexample: the claim says at most one of the two vendor shapes
structurally matches any JSON document. Both structs tolerate unknown
fields, so a document carrying the union of both field sets matches both
shapes — and the two client paths then disagree on the variant: the
Anthropic client's untagged parse picks `Anthropic`, while the OpenAI
client's direct `OpenAIResponse` parse yields `OpenAI`. -/
theorem c3_counterexample :
    matchesAnthropic ambiguousDoc = true ∧ matchesOpenAI ambiguousDoc = true ∧
    detectShape ambiguousDoc = some ShapeTag.anthropic ∧
    openaiClientShape ambiguousDoc = some ShapeTag.openai := by
  refine ⟨by decide, by decide, by decide, by decide⟩

/-- C3 amended: the two shapes are not mutually exclusive, but the untagged
parser is still a deterministic function of the JSON shape alone — it
commits to `Anthropic` whenever that shape matches, to `OpenAI` when only
the OpenAI shape matches, and fails when neither does; the OpenAI client
path accepts exactly the OpenAI shape. So for every document that matches
at most one shape, the variant is fixed by the returned JSON, not by the
vendor requested. -/
theorem c3_shape_detection (j : Json) :
    (matchesAnthropic j = true → detectShape j = some ShapeTag.anthropic) ∧
    (matchesAnthropic j = false → matchesOpenAI j = true →
      detectShape j = some ShapeTag.openai) ∧
    (detectShape j = none ↔ (matchesAnthropic j = false ∧ matchesOpenAI j = false)) ∧
    (openaiClientShape j = some ShapeTag.openai ↔ matchesOpenAI j = true) := by
  unfold detectShape openaiClientShape
  cases hA : matchesAnthropic j <;> cases hO : matchesOpenAI j <;> simp

/-- C3 amended, witness: the detection applied to the ambiguous document. -/
theorem c3_shape_detection_witness :
    detectShape ambiguousDoc = some ShapeTag.anthropic :=
  (c3_shape_detection ambiguousDoc).1 (by decide)

/-- C4: whenever no message was ever added (the builder's `messages` field
was never populated by `user_message`), `render_request` fails with
`MissingMessages`, for either target vendor. -/
theorem c4_missing_messages (vendor : ClientLlm) (b : RequestBuilder)
    (h : b.messages = none) :
    render_request vendor b = .error .MissingMessages := by
  unfold render_request
  rw [h]

/-- C4 witness: a fresh builder targeting the Anthropic vendor. -/
theorem c4_missing_messages_witness :
    RequestBuilder.new.messages = none ∧
    render_request ClientLlm.anthropic RequestBuilder.new = .error .MissingMessages :=
  ⟨rfl, c4_missing_messages ClientLlm.anthropic RequestBuilder.new rfl⟩

/-- C8: `render_request` takes `&self` and its body is pure value
construction (no I/O calls); in the state-passing embedding, a render
returns the builder unchanged, and a second render on that returned state
yields a result equal to the first — rendering is deterministic and
idempotent, and equal `Json` values serialize to byte-identical text. -/
theorem c8_render_deterministic (vendor : ClientLlm) (b : RequestBuilder) :
    (renderStep vendor b).2 = b ∧
    (renderStep vendor ((renderStep vendor b).2)).1 = (renderStep vendor b).1 :=
  ⟨rfl, rfl⟩

/-- The document `render_request` produces for the Anthropic vendor on a
valid builder state (messages present, finite resolved temperature). -/
theorem render_request_anthropic_eq (b : RequestBuilder) (msgs : List Message)
    (q : Rat) (hm : b.messages = some msgs)
    (ht : b.temperature.getD DEFAULT_TEMP = .finite q) :
    render_request ClientLlm.anthropic b = .ok (Json.obj
      ([("model", .str (b.model.getD DEFAULT_ANTHROPIC_MODEL)),
        ("messages", .arr (msgs.map Message.toJson)),
        ("max_tokens", .num ((b.max_tokens.getD DEFAULT_MAX_TOKENS : Nat) : Rat)),
        ("temperature", .num q),
        ("system", .str (b.system_prompt.getD ""))] ++
       match b.tools with
       | some ts => [("tools", Json.arr (ts.map Tool.to_anthropic_format))]
       | none => [])) := by
  simp only [render_request, hm, ht, Number.from_f64]

/-- The document `render_request` produces for the OpenAI vendor on a
valid builder state. -/
theorem render_request_openai_eq (b : RequestBuilder) (msgs : List Message)
    (q : Rat) (hm : b.messages = some msgs)
    (ht : b.temperature.getD DEFAULT_TEMP = .finite q) :
    render_request ClientLlm.openai b = .ok (Json.obj
      ([("model", .str (b.model.getD DEFAULT_OPENAI_MODEL)),
        ("messages", .arr (msgs.map Message.toJson ++
          (if b.system_prompt.getD "" = "" then []
           else [Json.obj [("role", .str "system"),
                           ("content", .str (b.system_prompt.getD ""))]]))),
        ("max_tokens", .num ((b.max_tokens.getD DEFAULT_MAX_TOKENS : Nat) : Rat)),
        ("temperature", .num q)] ++
       match b.tools with
       | some ts => [("tools", Json.arr (ts.map Tool.to_openai_format))]
       | none => [])) := by
  simp only [render_request, hm, ht, Number.from_f64]

/-- C5: with at least one message present, rendering fails with
`InvalidUsage` exactly when the resolved temperature (the caller's value,
else the default `0.0`) is NaN or infinite — `Number::from_f64` is the
gate — and every finite temperature value lands verbatim in the rendered
document's `temperature` field. -/
theorem c5_temperature_validation (vendor : ClientLlm) (b : RequestBuilder)
    (msgs : List Message) (hm : b.messages = some msgs) :
    (∀ q, b.temperature.getD DEFAULT_TEMP = .finite q →
      ∃ doc, render_request vendor b = .ok doc ∧
        doc.getField "temperature" = some (.num q)) ∧
    ((b.temperature.getD DEFAULT_TEMP = .nan ∨
      b.temperature.getD DEFAULT_TEMP = .posInf ∨
      b.temperature.getD DEFAULT_TEMP = .negInf) →
      ∃ s, render_request vendor b = .error (.InvalidUsage s)) := by
  constructor
  · intro q hq
    cases vendor
    · rw [render_request_anthropic_eq b msgs q hm hq]
      exact ⟨_, rfl, by simp [Json.getField, lookupField]⟩
    · rw [render_request_openai_eq b msgs q hm hq]
      exact ⟨_, rfl, by simp [Json.getField, lookupField]⟩
  · intro h
    refine ⟨"Invalid temperature value: " ++ (b.temperature.getD DEFAULT_TEMP).display, ?_⟩
    rcases h with h | h | h <;>
      simp only [render_request, hm, h, Number.from_f64]

/-- C5 witness: NaN temperature is rejected; the default (finite `0.0`)
round-trips into the document. -/
theorem c5_temperature_validation_witness :
    nanTempBuilder.messages = some [⟨"user", "Hello!"⟩] ∧
    (∃ s, render_request ClientLlm.anthropic nanTempBuilder = .error (.InvalidUsage s)) ∧
    (∃ doc, render_request ClientLlm.anthropic greetingBuilder = .ok doc ∧
      doc.getField "temperature" = some (.num 0)) :=
  ⟨rfl,
   (c5_temperature_validation ClientLlm.anthropic nanTempBuilder
      [⟨"user", "Hello!"⟩] rfl).2 (Or.inl rfl),
   (c5_temperature_validation ClientLlm.anthropic greetingBuilder
      [⟨"user", "Hello!"⟩] rfl).1 0 rfl⟩

/-- C6: targeting the OpenAI vendor with a valid builder state (messages
present, finite resolved temperature), the rendered `messages` array is the
builder's transcript followed — when the resolved system prompt is
non-empty — by exactly one trailing `{"role": "system", "content": ...}`
element; an empty or unset system prompt appends nothing. -/
theorem c6_openai_system_prompt_placement (b : RequestBuilder)
    (msgs : List Message) (q : Rat)
    (hm : b.messages = some msgs)
    (ht : b.temperature.getD DEFAULT_TEMP = .finite q) :
    ∃ doc, render_request ClientLlm.openai b = .ok doc ∧
      doc.getField "messages" = some (.arr (msgs.map Message.toJson ++
        (if b.system_prompt.getD "" = "" then []
         else [Json.obj [("role", .str "system"),
                         ("content", .str (b.system_prompt.getD ""))]]))) := by
  rw [render_request_openai_eq b msgs q hm ht]
  exact ⟨_, rfl, by simp [Json.getField, lookupField]⟩

/-- C6 witness: a builder with a non-empty system prompt; the prompt is the
last element of the rendered `messages` array. -/
theorem c6_openai_system_prompt_placement_witness :
    ∃ doc, render_request ClientLlm.openai greetingBuilder = .ok doc ∧
      doc.getField "messages" = some (.arr
        ([(⟨"user", "Hello!"⟩ : Message).toJson] ++
         [Json.obj [("role", .str "system"),
                    ("content", .str "You are a helpful assistant.")]])) := by
  have h := c6_openai_system_prompt_placement greetingBuilder
    [⟨"user", "Hello!"⟩] 0 rfl rfl
  simpa using h

/-- C7: targeting the Anthropic vendor with a valid builder state, the
rendered document carries the resolved system prompt in the dedicated
top-level `system` field, the `messages` array is exactly the builder's
transcript, and — since `user_message` is the only way messages enter the
builder and it always stamps role `"user"` — no element of that array has
role `"system"`. -/
theorem c7_anthropic_system_field (b : RequestBuilder)
    (msgs : List Message) (q : Rat)
    (hm : b.messages = some msgs)
    (ht : b.temperature.getD DEFAULT_TEMP = .finite q)
    (hroles : ∀ m ∈ msgs, m.role = "user") :
    ∃ doc, render_request ClientLlm.anthropic b = .ok doc ∧
      doc.getField "system" = some (.str (b.system_prompt.getD "")) ∧
      doc.getField "messages" = some (.arr (msgs.map Message.toJson)) ∧
      ∀ jm ∈ msgs.map Message.toJson, jm.getField "role" ≠ some (.str "system") := by
  rw [render_request_anthropic_eq b msgs q hm ht]
  refine ⟨_, rfl, by simp [Json.getField, lookupField],
          by simp [Json.getField, lookupField], ?_⟩
  intro jm hjm
  rcases List.mem_map.mp hjm with ⟨m, hmem, rfl⟩
  simp [Message.toJson, Json.getField, lookupField, hroles m hmem]

/-- C7 witness: the greeting builder rendered for the Anthropic vendor. -/
theorem c7_anthropic_system_field_witness :
    ∃ doc, render_request ClientLlm.anthropic greetingBuilder = .ok doc ∧
      doc.getField "system" = some (.str "You are a helpful assistant.") ∧
      doc.getField "messages" = some (.arr [(⟨"user", "Hello!"⟩ : Message).toJson]) := by
  have h := c7_anthropic_system_field greetingBuilder [⟨"user", "Hello!"⟩] 0 rfl rfl
    (by intro m hm; simp at hm; rw [hm])
  rcases h with ⟨doc, h1, h2, h3, _⟩
  exact ⟨doc, h1, h2, by simpa using h3⟩

/-- C2 counterexample: the claim says leading tool-use blocks are ignored
and the first TEXT block's text is returned. The code matches only on
`content.first()`: on a response whose content is a tool-use block followed
by a text block with text `hi`, it returns the empty string, not `hi`. -/
theorem c2_counterexample :
    leadingToolUseResponse.first_message = "" ∧
    leadingToolUseResponse.first_message ≠ "hi" :=
  ⟨rfl, by decide⟩

/-- C2 amended: `first_message()` inspects only the FIRST content block of
a vendor-A response — it returns that block's text when it is a text block
and the empty string when it is a tool-use block (leading tool-use blocks
are not skipped) or when content is empty; for vendor-B responses it
returns the first choice's message content, else the placeholder
`Function call: <name>` naming the first tool call when content is absent
and a tool call exists, else the empty string. -/
theorem c2_first_message_amended (a : AnthropicResponse) (o : OpenAIResponse) :
    (a.content = [] → (ResponseMessage.anthropic a).first_message = "") ∧
    (∀ t bt rest, a.content = .text t bt :: rest →
      (ResponseMessage.anthropic a).first_message = t) ∧
    (∀ bt id name input rest, a.content = .toolUse bt id name input :: rest →
      (ResponseMessage.anthropic a).first_message = "") ∧
    (o.choices = [] → (ResponseMessage.openai o).first_message = "") ∧
    (∀ c rest, o.choices = c :: rest →
      (∀ s, c.message.content = some s →
        (ResponseMessage.openai o).first_message = s) ∧
      (c.message.content = none →
        (∀ tc tcs, c.message.tool_calls = some (tc :: tcs) →
          (ResponseMessage.openai o).first_message =
            "Function call: " ++ tc.function.name) ∧
        ((c.message.tool_calls = some [] ∨ c.message.tool_calls = none) →
          (ResponseMessage.openai o).first_message = ""))) := by
  refine ⟨?_, ?_, ?_, ?_, ?_⟩
  · intro h; simp [ResponseMessage.first_message, h]
  · intro t bt rest h; simp [ResponseMessage.first_message, h]
  · intro bt id name input rest h; simp [ResponseMessage.first_message, h]
  · intro h; simp [ResponseMessage.first_message, h]
  · intro c rest h
    refine ⟨?_, ?_⟩
    · intro s hs; simp [ResponseMessage.first_message, h, hs]
    · intro hn
      refine ⟨?_, ?_⟩
      · intro tc tcs htc; simp [ResponseMessage.first_message, h, hn, htc]
      · intro hcase
        rcases hcase with h0 | h0 <;> simp [ResponseMessage.first_message, h, hn, h0]

/-- C2 amended, witness: a text-first vendor-A response yields its text. -/
theorem c2_first_message_amended_witness :
    plainTextResponse.content = .text "hello" "text" :: [] ∧
    (ResponseMessage.anthropic plainTextResponse).first_message = "hello" :=
  ⟨rfl,
   (c2_first_message_amended plainTextResponse emptyChoicesResponse).2.1
     "hello" "text" [] rfl⟩

/-- The Anthropic arm of `tools()` (a filter over content blocks) computes
the same list as the spec-side per-block concatenation. -/
theorem anthropic_extract_eq (content : List AnthropicContentBlock) :
    content.filterMap (fun block =>
      match block with
      | .toolUse _ id name input => some (⟨id, name, input⟩ : ToolResponse)
      | .text .. => none) =
    content.flatMap (fun block =>
      match block with
      | .toolUse _ id name input => [(⟨id, name, input⟩ : ToolResponse)]
      | .text .. => []) := by
  induction content with
  | nil => rfl
  | cons b rest ih => cases b <;> simp [ih]

/-- The OpenAI arm of `tools()` (filter the choices for `tool_calls`,
flatten, map) computes the same list as the spec-side per-choice
concatenation. -/
theorem openai_extract_eq (parse : String → Option Json)
    (choices : List OpenAIChoice) :
    ((choices.filterMap (fun choice => choice.message.tool_calls)).flatten).map
      (fun tool_call =>
        (⟨tool_call.id, tool_call.function.name,
          (parse tool_call.function.arguments).getD Json.null⟩ : ToolResponse)) =
    choices.flatMap (fun choice =>
      (choice.message.tool_calls.getD []).map
        (fun tool_call =>
          (⟨tool_call.id, tool_call.function.name,
            (parse tool_call.function.arguments).getD Json.null⟩ : ToolResponse))) := by
  induction choices with
  | nil => rfl
  | cons c rest ih => cases h : c.message.tool_calls <;> simp [h, ih]

/-- `tools()` equals the spec-side extraction, wrapped in the
empty-becomes-`none` coding. -/
theorem tools_eq_ite (parse : String → Option Json) (r : ResponseMessage) :
    ResponseMessage.tools parse r =
      (if (specInvocations parse r).isEmpty then none
       else some (specInvocations parse r)) := by
  cases r with
  | anthropic a =>
    simp only [ResponseMessage.tools, specInvocations, anthropic_extract_eq]
  | openai o =>
    simp only [ResponseMessage.tools, specInvocations, openai_extract_eq]

/-- The empty-becomes-`none` coding: `none` exactly on the empty list, and
any `some` is the (non-empty) list itself. -/
theorem ite_empty_none_spec (l : List ToolResponse) :
    ((if l.isEmpty then none else some l) = none ↔ l = []) ∧
    ∀ m, (if l.isEmpty then none else some l) = some m → m = l ∧ m ≠ [] := by
  cases l <;> simp

/-- C9: `tools()` returns `none` exactly when no tool/function invocation
occurs anywhere in the response (across all content blocks for vendor A,
across all choices for vendor B), and otherwise `some` of the full ordered
invocation sequence — never `some []`. -/
theorem c9_tools_extraction (parse : String → Option Json) (r : ResponseMessage) :
    (ResponseMessage.tools parse r = none ↔ specInvocations parse r = []) ∧
    ∀ l, ResponseMessage.tools parse r = some l →
      l = specInvocations parse r ∧ l ≠ [] := by
  rw [tools_eq_ite]
  exact ite_empty_none_spec _

/-- C9 witness: the bad-arguments response carries exactly one invocation. -/
theorem c9_tools_extraction_witness :
    [(⟨"call_1", "get_weather", Json.null⟩ : ToolResponse)] =
      specInvocations rejectAll (.openai badArgumentsResponse) ∧
    [(⟨"call_1", "get_weather", Json.null⟩ : ToolResponse)] ≠ [] :=
  (c9_tools_extraction rejectAll (.openai badArgumentsResponse)).2
    [⟨"call_1", "get_weather", Json.null⟩] rfl

/-- C10: a tool call whose `arguments` string fails to parse does not make
`tools()` fail (the embedding is total, mirroring the source's
`.unwrap_or(Value::Null)`); the call still appears in the result, with its
`input` field equal to JSON `null`. -/
theorem c10_invalid_arguments_yield_null (parse : String → Option Json)
    (r : OpenAIResponse) (choice : OpenAIChoice) (tc : OpenAIToolCall)
    (hc : choice ∈ r.choices)
    (htc : tc ∈ choice.message.tool_calls.getD [])
    (hp : parse tc.function.arguments = none) :
    ∃ l, ResponseMessage.tools parse (.openai r) = some l ∧
      (⟨tc.id, tc.function.name, Json.null⟩ : ToolResponse) ∈ l := by
  have hmem : (⟨tc.id, tc.function.name, Json.null⟩ : ToolResponse) ∈
      specInvocations parse (.openai r) := by
    simp only [specInvocations]
    refine List.mem_flatMap.mpr ⟨choice, hc, ?_⟩
    refine List.mem_map.mpr ⟨tc, htc, ?_⟩
    rw [hp]
    rfl
  have hne : (specInvocations parse (.openai r)).isEmpty = false := by
    cases hsp : specInvocations parse (.openai r)
    · rw [hsp] at hmem; cases hmem
    · rfl
  rw [tools_eq_ite, hne]
  exact ⟨_, rfl, hmem⟩

/-- C10 witness: the bad-arguments response under a parser that rejects its
`arguments` string. -/
theorem c10_invalid_arguments_yield_null_witness :
    badChoice ∈ badArgumentsResponse.choices ∧
    badCall ∈ badChoice.message.tool_calls.getD [] ∧
    rejectAll badCall.function.arguments = none ∧
    ∃ l, ResponseMessage.tools rejectAll (.openai badArgumentsResponse) = some l ∧
      (⟨"call_1", "get_weather", Json.null⟩ : ToolResponse) ∈ l :=
  ⟨by decide, by decide, rfl,
   c10_invalid_arguments_yield_null rejectAll badArgumentsResponse badChoice badCall
     (by decide) (by decide) rfl⟩

end LlmBridge
